import Mathlib

/-!
Verification of the weabot location-resolution pipeline (src/wea.py).

The pipeline `get_weather_data(query, units)` is embedded as a pure
function of an explicit environment holding the three upstream HTTP
responses (postal geocoder, general geocoder, weather endpoint);
every outbound HTTP call the Python code would issue is recorded in a
trace.  The per-user SQLite table `users(user_id, location, units)` is
embedded as an association list, with the two upsert statements of the
`units` and `weather` commands translated clause by clause.
-/

namespace Weabot

/-- Characters removed by Python str.strip() with no argument
(ASCII whitespace; the model is restricted to ASCII input). -/
def isPySpace (c : Char) : Bool :=
  c == ' ' || c == '\t' || c == '\n' || c == '\r' ||
  c == Char.ofNat 11 || c == Char.ofNat 12

/-- ASCII decimal digit (model of the characters str.isdigit accepts,
restricted to ASCII input). -/
def isPyDigit (c : Char) : Bool :=
  '0' ≤ c && c ≤ '9'

/-- Python query.replace(" ", ""): remove every space character. -/
def removeSpaces (s : String) : String :=
  ⟨s.data.filter (fun c => c ≠ ' ')⟩

/-- Python query.strip(): drop leading and trailing whitespace. -/
def pyStrip (s : String) : String :=
  ⟨((s.data.dropWhile isPySpace).reverse.dropWhile isPySpace).reverse⟩

/-- Python s.isdigit(): nonempty and every character a digit
(ASCII fragment). -/
def pyIsdigit (s : String) : Bool :=
  !s.data.isEmpty && s.data.all isPyDigit

/-- The zip-classification test of wea.py line 47:
query.replace(" ", "").isdigit() and len(query.strip()) == 5. -/
def isZipQuery (q : String) : Bool :=
  pyIsdigit (removeSpaces q) && (pyStrip q).length == 5

/-- Modelled from the spec: a query is a postal code iff removing all
spaces yields a string of exactly 5 characters, all ASCII digits. -/
def specIsPostal (q : String) : Bool :=
  (removeSpaces q).length == 5 && (removeSpaces q).data.all isPyDigit

/-- Naive substring test on character lists. -/
def listContains (pat : List Char) : List Char → Bool
  | [] => pat.isEmpty
  | c :: rest => pat.isPrefixOf (c :: rest) || listContains pat rest

/-- Whether the string contains the literal substring "County". -/
def hasCounty (s : String) : Bool :=
  listContains "County".data s.data

/-- One place entry of a Zippopotam response
(the JSON renders latitude and longitude as strings). -/
structure ZipPlace where
  placeName : String
  latitude : String
  longitude : String
deriving DecidableEq

/-- Outcome of the Zippopotam HTTP call: a network or JSON error
(the exception is caught at wea.py line 58), or a response with a
status code and the parsed places list. -/
inductive ZipResult where
  | fail
  | resp (status : Nat) (places : List ZipPlace)
deriving DecidableEq

/-- One entry of an OpenWeatherMap geocoding response; the country key
is optional (wea.py line 74 reads it with .get and default "US").
Numeric values are carried as their rendered strings, since the code
only interpolates them into URLs. -/
structure GeoItem where
  lat : String
  lon : String
  name : String
  country : Option String
deriving DecidableEq

/-- Payload of a weather-endpoint response: exactly the fields the
program reads, as rendered values. -/
structure WeatherBody where
  name : String
  sysCountry : String
  mainTemp : String
  mainFeelsLike : String
  mainHumidity : String
  windSpeed : String
  weatherDescription : String
  weatherIcon : String
deriving DecidableEq

/-- The three upstream responses a single get_weather_data run can
observe. -/
structure Env where
  zip : ZipResult
  geoStatus : Nat
  geoItems : List GeoItem
  weatherStatus : Nat
  weatherBody : WeatherBody
deriving DecidableEq

/-- One outbound HTTP call, with the request data the code puts in the
URL.  reverseGeo is the reverse-geocoding endpoint of the general
provider; the constructor exists so that its absence from every trace
is expressible. -/
inductive Call where
  | zip (code : String)
  | geo (q : String)
  | reverseGeo (lat lon : String)
  | weather (lat lon unitsToken : String)
deriving DecidableEq

/-- PATH A body (wea.py lines 48-59): on status 200 take places[0];
a non-200 status, a network error, malformed JSON or an empty places
list (IndexError) all leave lat and lon unset. -/
def zipLookup (env : Env) : Option ZipPlace :=
  match env.zip with
  | .fail => none
  | .resp status places => if status = 200 then places.head? else none

/-- The candidate PATH A leaves in lat, lon, official_name: present
only when the query is zip-classified, the lookup succeeded, and both
coordinate strings are truthy (nonempty), since line 62 re-enters
PATH B on a falsy lat or lon. -/
def zipCandidate (env : Env) (q : String) : Option ZipPlace :=
  if isZipQuery q then
    match zipLookup env with
    | some p => if p.latitude ≠ "" ∧ p.longitude ≠ "" then some p else none
    | none => none
  else none

/-- The winning candidate name of the resolution phase: the zip
place name when PATH A won, else the first general-geocoding item
name (wea.py line 73). -/
def candidateName (env : Env) (q : String) : Option String :=
  match zipCandidate env q with
  | some p => some p.placeName
  | none => env.geoItems.head?.map (fun i => i.name)

/-- The winning candidate country: "US" when PATH A won (line 57),
else the first geocoding item country with default "US" (line 74). -/
def candidateCountry (env : Env) (q : String) : Option String :=
  match zipCandidate env q with
  | some _ => some "US"
  | none => env.geoItems.head?.map (fun i => i.country.getD "US")

/-- Embedding of get_weather_data (wea.py lines 39-85): returns the
value the coroutine returns together with the trace of outbound HTTP
calls in program order. -/
def getWeatherData (env : Env) (q u : String) : Option WeatherBody × List Call :=
  let zipCalls : List Call := if isZipQuery q then [Call.zip (pyStrip q)] else []
  match zipCandidate env q with
  | some p =>
      let calls := zipCalls ++ [Call.weather p.latitude p.longitude u]
      if env.weatherStatus = 200 then
        (some { env.weatherBody with name := p.placeName, sysCountry := "US" }, calls)
      else (none, calls)
  | none =>
      let calls := zipCalls ++ [Call.geo q]
      if env.geoStatus = 200 then
        match env.geoItems.head? with
        | some item =>
            let calls := calls ++ [Call.weather item.lat item.lon u]
            if env.weatherStatus = 200 then
              (some { env.weatherBody with
                        name := item.name,
                        sysCountry := item.country.getD "US" }, calls)
            else (none, calls)
        | none => (none, calls)
      else (none, calls)

/-- Temperature label chosen at wea.py lines 188-192. -/
def tempLabel (u : String) : String :=
  if u = "imperial" then "°F" else "°C"

/-- Wind-speed label chosen at wea.py lines 188-193. -/
def speedLabel (u : String) : String :=
  if u = "imperial" then "mph" else "m/s"

/-- Whether a call is to the zip (postal) provider. -/
def isZipCall (c : Call) : Bool :=
  match c with
  | .zip _ => true
  | _ => false

/-- Whether a call is to the general geocoding provider. -/
def isGeoCall (c : Call) : Bool :=
  match c with
  | .geo _ => true
  | _ => false

/-- Whether a call is a reverse-geocoding lookup. -/
def isReverseCall (c : Call) : Bool :=
  match c with
  | .reverseGeo _ _ => true
  | _ => false

/-- Whether a call is to the weather endpoint. -/
def isWeatherCall (c : Call) : Bool :=
  match c with
  | .weather _ _ _ => true
  | _ => false

/-- A weather call carries the given unit token; true of other calls. -/
def weatherTokenIs (u : String) (c : Call) : Bool :=
  match c with
  | .weather _ _ t => t == u
  | _ => true

/-- One row of the users table: location TEXT (nullable), units TEXT
(nullable in principle, though the program always writes a value). -/
structure Row where
  loc : Option String
  units : Option String
deriving DecidableEq

/-- The users table as an association list keyed by user_id. -/
abbrev Db := List (Nat × Row)

/-- SELECT ... FROM users WHERE user_id = ? followed by fetchone. -/
def dbGet (db : Db) (uid : Nat) : Option Row :=
  (db.find? (fun p => p.1 = uid)).map (fun p => p.2)

/-- Update every row of the given user in place. -/
def dbUpdate (db : Db) (uid : Nat) (f : Row → Row) : Db :=
  db.map (fun p => if p.1 = uid then (p.1, f p.2) else p)

/-- Preference-word normalization of the units command
(wea.py lines 95-102): the stored token and the display text,
or none for an unrecognized word. -/
def parsePreference (pref : String) : Option (String × String) :=
  let p := pref.toLower
  if p = "c" ∨ p = "metric" ∨ p = "celsius" ∨ p = "ca" then
    some ("metric", "Metric (°C, m/s)")
  else if p = "f" ∨ p = "imperial" ∨ p = "fahrenheit" ∨ p = "us" then
    some ("imperial", "Imperial (°F, mph)")
  else none

/-- The write of the units command (wea.py lines 107-111):
INSERT INTO users (user_id, units) VALUES (?, ?)
ON CONFLICT(user_id) DO UPDATE SET units=excluded.units.
A fresh insert leaves location NULL; on conflict only units changes.
An unrecognized preference word performs no write. -/
def unitsCommand (db : Db) (uid : Nat) (pref : String) : Db :=
  match parsePreference pref with
  | none => db
  | some (newUnit, _) =>
      match dbGet db uid with
      | some _ => dbUpdate db uid (fun r => { r with units := some newUnit })
      | none => db ++ [(uid, ⟨none, some newUnit⟩)]

/-- Python truthiness of the fetched units cell
(res[0] if res and res[0] else, wea.py lines 149 and 173):
NULL and the empty string are falsy. -/
def unitsCellOrDefault (r : Option Row) : String :=
  match r with
  | none => "imperial"
  | some row =>
      match row.units with
      | none => "imperial"
      | some u => if u = "" then "imperial" else u

/-- The location save of the weather command (wea.py lines 147-155):
read the existing units (default imperial), then
INSERT INTO users (user_id, location, units) VALUES (?, ?, ?)
ON CONFLICT(user_id) DO UPDATE SET location=excluded.location.
On conflict only location changes; a fresh insert stores the
default units. -/
def weatherSaveLocation (db : Db) (uid : Nat) (location : String) : Db :=
  let userUnits := unitsCellOrDefault (dbGet db uid)
  match dbGet db uid with
  | some _ => dbUpdate db uid (fun r => { r with loc := some location })
  | none => db ++ [(uid, ⟨some location, some userUnits⟩)]

/-- A sample upstream weather payload. -/
def sampleBody : WeatherBody :=
  ⟨"Denver", "US", "55.2", "53.1", "40", "5.8", "clear sky", "01d"⟩

/-- Environment in which the postal provider is down and the general
provider resolves the query to an administrative-region name. -/
def countyEnv : Env :=
  ⟨ZipResult.fail, 200, [⟨"39.53", "-104.97", "Douglas County", some "US"⟩],
   200, sampleBody⟩

/-- Environment in which the postal provider succeeds. -/
def zipOkEnv : Env :=
  ⟨ZipResult.resp 200 [⟨"Highlands Ranch", "39.5419", "-104.9708"⟩],
   200, [], 200, sampleBody⟩

/-- Environment in which the general provider returns an empty list. -/
def geoEmptyEnv : Env :=
  ⟨ZipResult.fail, 200, [], 200, sampleBody⟩

/-- Environment in which geocoding succeeds but the weather endpoint
answers 503. -/
def weatherFailEnv : Env :=
  ⟨ZipResult.fail, 200, [⟨"48.8566", "2.3522", "Paris", some "FR"⟩],
   503, sampleBody⟩

/-- Environment for a successful free-text resolution. -/
def parisEnv : Env :=
  ⟨ZipResult.fail, 200, [⟨"48.8566", "2.3522", "Paris", some "FR"⟩],
   200, sampleBody⟩

/-- The report produced in parisEnv: upstream payload with place and
country overwritten. -/
def parisReport : WeatherBody :=
  { sampleBody with name := "Paris", sysCountry := "FR" }

/-- A one-row users table. -/
def dbSample : Db := [(1, ⟨some "Denver", some "metric"⟩)]

/-- Looking a user up after an in-place update yields the updated row. -/
theorem dbGet_update_self (db : Db) (uid : Nat) (f : Row → Row) :
    dbGet (dbUpdate db uid f) uid = (dbGet db uid).map f := by
  induction db with
  | nil => rfl
  | cons hd tl ih =>
      by_cases h : hd.1 = uid
      · simp [dbGet, dbUpdate, List.find?, h]
      · simp [dbGet, dbUpdate, List.find?, h] at ih ⊢
        exact ih

/-- Appending a fresh row for an absent user makes it the lookup
result. -/
theorem dbGet_append_of_none (db : Db) (uid : Nat) (row : Row)
    (h : dbGet db uid = none) :
    dbGet (db ++ [(uid, row)]) uid = some row := by
  have h0 : db.find? (fun p => decide (p.1 = uid)) = none := by
    cases hf : db.find? (fun p => decide (p.1 = uid)) with
    | none => rfl
    | some x =>
        unfold dbGet at h
        rw [hf] at h
        simp at h
  unfold dbGet
  rw [List.find?_append, h0]
  simp [List.find?]

/-- Claim C1, counterexample: the query consisting of the digit 1, a
space, and the digits 2345 becomes five ASCII digits once its internal
space is removed, so the claim classifies it as a postal code; the
code classifies it as free text (line 47 measures the length of the
merely trimmed query) and its run issues no postal-provider call. -/
theorem classify_internal_space_diverges :
    specIsPostal "1 2345" = true ∧ isZipQuery "1 2345" = false ∧
    ((getWeatherData geoEmptyEnv "1 2345" "imperial").2.any isZipCall) = false := by
  decide

/-- Claim C1, amended: the input is treated as a postal code (the
postal-provider call is issued) iff the query with all spaces removed
is a nonempty string of ASCII digits and the whitespace-trimmed query
has exactly 5 characters; the classification is a total function. -/
theorem classify_test (env : Env) (q u : String) :
    (((getWeatherData env q u).2.any isZipCall) = isZipQuery q) ∧
    (isZipQuery q = true ↔
      (removeSpaces q ≠ "" ∧ (removeSpaces q).data.all isPyDigit = true ∧
       (pyStrip q).length = 5)) := by
  constructor
  · unfold getWeatherData
    by_cases hq : isZipQuery q
    · cases hz : zipCandidate env q with
      | some p =>
          by_cases hw : env.weatherStatus = 200 <;>
            simp [hq, hz, hw, isZipCall]
      | none =>
          by_cases hg : env.geoStatus = 200
          · cases hi : env.geoItems.head? with
            | some item =>
                by_cases hw : env.weatherStatus = 200 <;>
                  simp [hq, hz, hg, hi, hw, isZipCall]
            | none => simp [hq, hz, hg, hi, isZipCall]
          · simp [hq, hz, hg, isZipCall]
    · have hz : zipCandidate env q = none := by
        simp [zipCandidate, hq]
      by_cases hg : env.geoStatus = 200
      · cases hi : env.geoItems.head? with
        | some item =>
            by_cases hw : env.weatherStatus = 200 <;>
              simp [hq, hz, hg, hi, hw, isZipCall]
        | none => simp [hq, hz, hg, hi, isZipCall]
      · simp [hq, hz, hg, isZipCall]
  · unfold isZipQuery pyIsdigit
    rw [Bool.and_eq_true, Bool.and_eq_true]
    constructor
    · rintro ⟨⟨h1, h2⟩, h3⟩
      refine ⟨?_, h2, by simpa using h3⟩
      intro hcon
      rw [hcon] at h1
      simp at h1
    · rintro ⟨h1, h2, h3⟩
      refine ⟨⟨?_, h2⟩, by simp [h3]⟩
      simp only [Bool.not_eq_true']
      cases hre : (removeSpaces q).data with
      | nil =>
          exfalso
          apply h1
          apply String.ext
          rw [hre]
      | cons a l => rfl

/-- Claim C1, witness: the characterization instantiated at the
five-digit query 80129. -/
theorem classify_test_witness :
    removeSpaces "80129" ≠ "" ∧
    (removeSpaces "80129").data.all isPyDigit = true ∧
    (pyStrip "80129").length = 5 :=
  (classify_test geoEmptyEnv "80129" "imperial").2.mp (by decide)

/-- Claim C2, counterexample: with the postal provider down and the
general provider resolving the zip query 80129 to Douglas County, the
run issues no reverse-geocoding call at all and surfaces the name
Douglas County, which contains the substring County. -/
theorem county_name_not_replaced :
    isZipQuery "80129" = true ∧
    (getWeatherData countyEnv "80129" "imperial").1 =
      some { sampleBody with name := "Douglas County", sysCountry := "US" } ∧
    hasCounty "Douglas County" = true ∧
    (getWeatherData countyEnv "80129" "imperial").2 =
      [Call.zip "80129", Call.geo "80129",
       Call.weather "39.53" "-104.97" "imperial"] ∧
    ((getWeatherData countyEnv "80129" "imperial").2.any isReverseCall) = false := by
  decide

/-- Claim C2, amended: no reverse-geocoding lookup is ever issued, and
every successful run surfaces the winning candidate name verbatim,
whether or not it contains the substring County. -/
theorem no_reverse_name_verbatim (env : Env) (q u : String) :
    ((getWeatherData env q u).2.any isReverseCall) = false ∧
    (∀ d, (getWeatherData env q u).1 = some d → candidateName env q = some d.name) := by
  unfold getWeatherData candidateName
  by_cases hq : isZipQuery q
  · cases hz : zipCandidate env q with
    | some p =>
        by_cases hw : env.weatherStatus = 200 <;>
          simp [hq, hz, hw, isReverseCall]
    | none =>
        by_cases hg : env.geoStatus = 200
        · cases hi : env.geoItems.head? with
          | some item =>
              by_cases hw : env.weatherStatus = 200 <;>
                simp [hq, hz, hg, hi, hw, isReverseCall]
          | none => simp [hq, hz, hg, hi, isReverseCall]
        · simp [hq, hz, hg, isReverseCall]
  · have hz : zipCandidate env q = none := by
      simp [zipCandidate, hq]
    by_cases hg : env.geoStatus = 200
    · cases hi : env.geoItems.head? with
      | some item =>
          by_cases hw : env.weatherStatus = 200 <;>
            simp [hq, hz, hg, hi, hw, isReverseCall]
      | none => simp [hq, hz, hg, hi, isReverseCall]
    · simp [hq, hz, hg, isReverseCall]

/-- Claim C2, witness: the verbatim-name property instantiated in the
county environment. -/
theorem no_reverse_name_verbatim_witness :
    candidateName countyEnv "80129" =
      some ({ sampleBody with name := "Douglas County", sysCountry := "US" } : WeatherBody).name :=
  (no_reverse_name_verbatim countyEnv "80129" "imperial").2
    { sampleBody with name := "Douglas County", sysCountry := "US" } (by decide)

/-- Claim C3: when the query is zip-classified and the postal provider
returns a place with truthy coordinates, the general geocoding
provider is never called in that run. -/
theorem zip_success_skips_general (env : Env) (q u : String) (p : ZipPlace)
    (hq : isZipQuery q = true) (hz : zipLookup env = some p)
    (hla : p.latitude ≠ "") (hlo : p.longitude ≠ "") :
    ((getWeatherData env q u).2.any isGeoCall) = false := by
  have hc : zipCandidate env q = some p := by
    simp [zipCandidate, hq, hz, hla, hlo]
  unfold getWeatherData
  by_cases hw : env.weatherStatus = 200 <;>
    simp [hq, hc, hw, isGeoCall]

/-- Claim C3, witness: the short-circuit instantiated where the postal
provider resolves 80129 to Highlands Ranch. -/
theorem zip_success_skips_general_witness :
    ((getWeatherData zipOkEnv "80129" "imperial").2.any isGeoCall) = false :=
  zip_success_skips_general zipOkEnv "80129" "imperial"
    ⟨"Highlands Ranch", "39.5419", "-104.9708"⟩
    (by decide) (by decide) (by decide) (by decide)

/-- Claim C4: when the postal path leaves no candidate and the general
provider answers with a non-200 status or an empty list, the run
returns the single failure value none and never calls the weather
endpoint. -/
theorem geocode_exhausted_not_found (env : Env) (q u : String)
    (hz : zipCandidate env q = none)
    (hg : env.geoStatus ≠ 200 ∨ env.geoItems = []) :
    (getWeatherData env q u).1 = none ∧
    ((getWeatherData env q u).2.any isWeatherCall) = false := by
  unfold getWeatherData
  rcases hg with hg | hg
  · by_cases hq : isZipQuery q <;>
      simp [hz, hg, hq, isWeatherCall, isZipCall, isGeoCall]
  · by_cases hq : isZipQuery q <;> by_cases hgs : env.geoStatus = 200 <;>
      simp [hz, hg, hq, hgs, isWeatherCall, isZipCall, isGeoCall]

/-- Claim C4, witness: the empty-list scenario for an unresolvable
free-text query. -/
theorem geocode_exhausted_not_found_witness :
    (getWeatherData geoEmptyEnv "Qwxyzzy123" "metric").1 = none ∧
    ((getWeatherData geoEmptyEnv "Qwxyzzy123" "metric").2.any isWeatherCall) = false :=
  geocode_exhausted_not_found geoEmptyEnv "Qwxyzzy123" "metric"
    (by decide) (Or.inr rfl)

/-- Claim C5: every weather call of a run carries exactly the unit
token the run was invoked with, and the display labels chosen at
lines 188-193 agree with that token: imperial gives the Fahrenheit and
mph labels, metric gives the Celsius and meters-per-second labels. -/
theorem unit_labels_agree (env : Env) (q u : String) :
    ((getWeatherData env q u).2.all (weatherTokenIs u)) = true ∧
    (u = "imperial" → tempLabel u = "°F" ∧ speedLabel u = "mph") ∧
    (u = "metric" → tempLabel u = "°C" ∧ speedLabel u = "m/s") := by
  refine ⟨?_, ?_, ?_⟩
  · unfold getWeatherData
    by_cases hq : isZipQuery q
    · cases hz : zipCandidate env q with
      | some p =>
          by_cases hw : env.weatherStatus = 200 <;>
            simp [hq, hz, hw, weatherTokenIs]
      | none =>
          by_cases hg : env.geoStatus = 200
          · cases hi : env.geoItems.head? with
            | some item =>
                by_cases hw : env.weatherStatus = 200 <;>
                  simp [hq, hz, hg, hi, hw, weatherTokenIs]
            | none => simp [hq, hz, hg, hi, weatherTokenIs]
          · simp [hq, hz, hg, weatherTokenIs]
    · have hz : zipCandidate env q = none := by
        simp [zipCandidate, hq]
      by_cases hg : env.geoStatus = 200
      · cases hi : env.geoItems.head? with
        | some item =>
            by_cases hw : env.weatherStatus = 200 <;>
              simp [hq, hz, hg, hi, hw, weatherTokenIs]
        | none => simp [hq, hz, hg, hi, weatherTokenIs]
      · simp [hq, hz, hg, weatherTokenIs]
  · intro h
    subst h
    exact ⟨rfl, rfl⟩
  · intro h
    subst h
    constructor <;> simp [tempLabel, speedLabel]

/-- Claim C5, witness: both unit systems instantiated, with the token
check evaluated on a concrete imperial run. -/
theorem unit_labels_agree_witness :
    (tempLabel "imperial" = "°F" ∧ speedLabel "imperial" = "mph") ∧
    (tempLabel "metric" = "°C" ∧ speedLabel "metric" = "m/s") ∧
    ((getWeatherData countyEnv "80129" "imperial").2.all (weatherTokenIs "imperial")) = true :=
  ⟨(unit_labels_agree countyEnv "80129" "imperial").2.1 rfl,
   (unit_labels_agree countyEnv "80129" "metric").2.2 rfl,
   (unit_labels_agree countyEnv "80129" "imperial").1⟩

/-- Claim C6: whenever a run returns a report, its place name and
country are exactly the pipeline's canonical candidate name and
country, and every other field of the report equals the corresponding
field of the upstream weather payload. -/
theorem report_overwrite_frame (env : Env) (q u : String) (d : WeatherBody)
    (h : (getWeatherData env q u).1 = some d) :
    candidateName env q = some d.name ∧
    candidateCountry env q = some d.sysCountry ∧
    d.mainTemp = env.weatherBody.mainTemp ∧
    d.mainFeelsLike = env.weatherBody.mainFeelsLike ∧
    d.mainHumidity = env.weatherBody.mainHumidity ∧
    d.windSpeed = env.weatherBody.windSpeed ∧
    d.weatherDescription = env.weatherBody.weatherDescription ∧
    d.weatherIcon = env.weatherBody.weatherIcon := by
  unfold getWeatherData at h
  cases hz : zipCandidate env q with
  | some p =>
      rw [hz] at h
      by_cases hw : env.weatherStatus = 200
      · simp [hw] at h
        rw [← h]
        simp [candidateName, candidateCountry, hz]
      · simp [hw] at h
  | none =>
      rw [hz] at h
      by_cases hg : env.geoStatus = 200
      · cases hi : env.geoItems.head? with
        | some item =>
            by_cases hw : env.weatherStatus = 200
            · simp [hg, hi, hw] at h
              rw [← h]
              simp [candidateName, candidateCountry, hz, hi]
            · simp [hg, hi, hw] at h
        | none => simp [hg, hi] at h
      · simp [hg] at h

/-- Claim C6, witness: the frame condition instantiated on the Paris
run. -/
theorem report_overwrite_frame_witness :
    candidateName parisEnv "Paris" = some parisReport.name ∧
    candidateCountry parisEnv "Paris" = some parisReport.sysCountry ∧
    parisReport.mainTemp = parisEnv.weatherBody.mainTemp ∧
    parisReport.mainFeelsLike = parisEnv.weatherBody.mainFeelsLike ∧
    parisReport.mainHumidity = parisEnv.weatherBody.mainHumidity ∧
    parisReport.windSpeed = parisEnv.weatherBody.windSpeed ∧
    parisReport.weatherDescription = parisEnv.weatherBody.weatherDescription ∧
    parisReport.weatherIcon = parisEnv.weatherBody.weatherIcon :=
  report_overwrite_frame parisEnv "Paris" "metric" parisReport (by decide)

/-- Claim C7, counterexample: a run that resolved Paris and then got a
503 from the weather endpoint (its trace contains a weather call)
returns exactly the same value none as a run whose geocoding was
exhausted (no weather call): the two error cases are not distinct. -/
theorem upstream_error_not_distinct :
    (getWeatherData weatherFailEnv "Paris" "metric").1 = none ∧
    ((getWeatherData weatherFailEnv "Paris" "metric").2.any isWeatherCall) = true ∧
    (getWeatherData geoEmptyEnv "Qwxyzzy123" "metric").1 = none ∧
    ((getWeatherData geoEmptyEnv "Qwxyzzy123" "metric").2.any isWeatherCall) = false ∧
    (getWeatherData weatherFailEnv "Paris" "metric").1 =
      (getWeatherData geoEmptyEnv "Qwxyzzy123" "metric").1 := by
  decide

/-- Claim C7, amended: when the weather endpoint answers with a
non-200 status the run returns the generic failure value none, the
same value every other failure path returns. -/
theorem weather_non200_failure (env : Env) (q u : String)
    (h : env.weatherStatus ≠ 200) :
    (getWeatherData env q u).1 = none := by
  unfold getWeatherData
  cases hz : zipCandidate env q with
  | some p => simp [h]
  | none =>
      by_cases hg : env.geoStatus = 200
      · cases hi : env.geoItems.head? with
        | some item => simp [hg, hi, h]
        | none => simp [hg, hi]
      · simp [hg]

/-- Claim C7, witness: the 503 environment instantiated. -/
theorem weather_non200_failure_witness :
    (getWeatherData weatherFailEnv "Paris" "metric").1 = none :=
  weather_non200_failure weatherFailEnv "Paris" "metric" (by decide)

/-- Claim C8, counterexample: with the postal provider down, the
fallback request for the zip query 80129 carries exactly the bare
five-digit string: every character of the general-provider request is
an ASCII digit, so no country suffix accompanies the postal code. -/
theorem fallback_lacks_country_qualifier :
    isZipQuery "80129" = true ∧
    (getWeatherData geoEmptyEnv "80129" "imperial").2 =
      [Call.zip "80129", Call.geo "80129"] ∧
    ("80129" : String).data.all isPyDigit = true := by
  decide

/-- Claim C8, amended: when a zip-classified query falls through to
the general provider, that provider is called with the original raw
query verbatim and with nothing else. -/
theorem fallback_query_verbatim (env : Env) (q u : String)
    (hq : isZipQuery q = true) (hz : zipCandidate env q = none) :
    Call.geo q ∈ (getWeatherData env q u).2 ∧
    (∀ s, Call.geo s ∈ (getWeatherData env q u).2 → s = q) := by
  unfold getWeatherData
  by_cases hg : env.geoStatus = 200
  · cases hi : env.geoItems.head? with
    | some item =>
        by_cases hw : env.weatherStatus = 200 <;>
          simp [hq, hz, hg, hi, hw]
    | none => simp [hq, hz, hg, hi]
  · simp [hq, hz, hg]

/-- Claim C8, witness: the verbatim fallback request in the
empty-result environment. -/
theorem fallback_query_verbatim_witness :
    Call.geo "80129" ∈ (getWeatherData geoEmptyEnv "80129" "imperial").2 :=
  (fallback_query_verbatim geoEmptyEnv "80129" "imperial"
    (by decide) (by decide)).1

/-- Claim C9: for a user who already has a row, the units command
rewrites only the units cell; the stored location is unchanged
(the upsert's conflict clause sets units alone, and an unrecognized
preference word writes nothing). -/
theorem units_preserves_location (db : Db) (uid : Nat) (pref : String) (r : Row)
    (h : dbGet db uid = some r) :
    ((dbGet (unitsCommand db uid pref) uid).map (fun x => x.loc)) = some r.loc := by
  unfold unitsCommand
  cases hp : parsePreference pref with
  | none => simp [h]
  | some v =>
      obtain ⟨nu, disp⟩ := v
      simp [h, dbGet_update_self]

/-- Claim C9, witness: the metric preference applied to the sample
row. -/
theorem units_preserves_location_witness :
    ((dbGet (unitsCommand dbSample 1 "C") 1).map (fun x => x.loc)) =
      some (some "Denver") :=
  units_preserves_location dbSample 1 "C" ⟨some "Denver", some "metric"⟩ rfl

/-- Claim C10: saving a new location through the weather command
leaves an existing row's units cell exactly as it was (the conflict
clause sets location alone), and a user with no row gets the location
stored with the imperial default. -/
theorem weather_save_preserves_units (db : Db) (uid : Nat) (location : String) :
    (∀ r, dbGet db uid = some r →
      ((dbGet (weatherSaveLocation db uid location) uid).map (fun x => x.units)) =
        some r.units) ∧
    (dbGet db uid = none →
      dbGet (weatherSaveLocation db uid location) uid =
        some ⟨some location, some "imperial"⟩) := by
  constructor
  · intro r h
    unfold weatherSaveLocation
    simp [h, dbGet_update_self]
  · intro h
    unfold weatherSaveLocation
    simp [h, unitsCellOrDefault]
    exact dbGet_append_of_none db uid _ h

/-- Claim C10, witness: the save applied to the sample row and to an
absent user. -/
theorem weather_save_preserves_units_witness :
    ((dbGet (weatherSaveLocation dbSample 1 "80129") 1).map (fun x => x.units)) =
      some (some "metric") ∧
    dbGet (weatherSaveLocation [] 2 "80129") 2 =
      some ⟨some "80129", some "imperial"⟩ :=
  ⟨(weather_save_preserves_units dbSample 1 "80129").1
      ⟨some "Denver", some "metric"⟩ rfl,
   (weather_save_preserves_units [] 2 "80129").2 rfl⟩

end Weabot
